import Mathlib

/-!
Shallow embedding of the multi-rotor coupling subsystem of `ross/multi_rotor.py`
(`GearElement` / `MultiRotor`).

Matrices are modelled as functions `ℕ → ℕ → ℝ` (entry access), Python floats as
`ℝ`, and Python exceptions as `Except PyErr`.  The single-rotor base type
(`ross.rotor_assembly.Rotor`) is outside the embedded module, so a rotor is a
record of the data and matrix accessors that `MultiRotor` consumes from it.
-/

/-- Python exceptions raised on the modelled code paths. -/
inductive PyErr where
  | typeError
  | valueError
  | indexError
  deriving DecidableEq

/-- An element as seen by the node-renumbering loop of `MultiRotor.__init__`:
its own node id `n` and, when the element has one (`try: elm.n_link += d_node`),
its linked-node id `n_link`. -/
structure MRElement where
  n : ℕ
  n_link : Option ℕ
  deriving DecidableEq

/-- An entry of `rotor.disk_elements`.  `isGear` models the
`type(elm) == GearElement` test; `base_radius` and `pressure_angle` are the
`GearElement` attributes, and `dof_global_index` is the list
`elm.dof_global_index.values()` of the element's six global DOF indices as
assigned by the rotor assembly. -/
structure DiskElem where
  n : ℕ
  isGear : Bool
  base_radius : ℝ
  pressure_angle : ℝ
  dof_global_index : List ℕ

/-- The data and matrix accessors a single rotor object exposes to
`MultiRotor`.  `ross.rotor_assembly.Rotor` is an external collaborator, so its
accessors are abstract function fields here. -/
structure RotorModel where
  number_dof : ℕ
  ndof : ℕ
  nodes : List ℕ
  link_nodes : List ℕ
  nodes_pos : List ℝ
  center_line_pos : List ℝ
  elements : List MRElement
  disk_elements : List DiskElem
  Mfun : Option ℝ → Bool → ℕ → ℕ → ℝ
  Kfun : ℝ → List ℕ → ℕ → ℕ → ℝ
  Cfun : ℝ → List ℕ → ℕ → ℕ → ℝ
  Gfun : ℕ → ℕ → ℝ
  Ksdtfun : ℕ → ℕ → ℝ

/-- The attributes a constructed `MultiRotor` instance carries.  `rotor1` and
`rotor2` are the two entries of `self.rotors`, `gear1`/`gear2` the entries of
`self.gears`. -/
structure MultiRotorState where
  rotor1 : RotorModel
  rotor2 : RotorModel
  gear_ratio : ℝ
  gear_mesh_stiffness : ℝ
  gear1 : DiskElem
  gear2 : DiskElem
  dy_pos : ℝ
  dz_pos : ℝ
  node_offset : ℕ
  R2_nodes : List ℕ
  nodes : List ℕ
  nodes_pos : List ℝ
  center_line_pos : List ℝ
  elements : List MRElement

/-- Python `max(list)`: `ValueError` on an empty list. -/
def pyMax (l : List ℕ) : Except PyErr ℕ :=
  match l.max? with
  | some m => .ok m
  | none => .error .valueError

/-- Python `min(list)`: `ValueError` on an empty list. -/
def pyMin (l : List ℕ) : Except PyErr ℕ :=
  match l.min? with
  | some m => .ok m
  | none => .error .valueError

/-- Python `list.index(x)`: first index of `x`, `ValueError` when absent. -/
def pyIndex (l : List ℕ) (x : ℕ) : Except PyErr ℕ :=
  match l.findIdx? (fun y => y == x) with
  | some i => .ok i
  | none => .error .valueError

/-- Python `list[i]` on a float list: `IndexError` out of range. -/
def pyGet (l : List ℝ) (i : ℕ) : Except PyErr ℝ :=
  match l.get? i with
  | some v => .ok v
  | none => .error .indexError

/-- Python `frequency * gear_ratio`: `TypeError` when `frequency` is `None`. -/
def pyMulFloat : Option ℝ → ℝ → Except PyErr ℝ
  | some x, r => .ok (x * r)
  | none, _ => .error .typeError

/-- The node renumbering applied to one element of the driven rotor copy:
`elm.n += d_node` and, when the element has a linked node,
`elm.n_link += d_node`. -/
def shiftElement (d : ℕ) (e : MRElement) : MRElement :=
  { n := e.n + d, n_link := e.n_link.map (fun x => x + d) }

/-- `MultiRotor._join_matrices`: a zero matrix of size `(n1+n2) × (n1+n2)` with
the drive matrix assigned at `[:n1, :n1]` and the driven matrix at
`[n1:, n1:]` (`self.ndof = n1 + n2` for the combined assembly). -/
def joinMatrices (n1 n2 : ℕ) (driveM drivenM : ℕ → ℕ → ℝ) : ℕ → ℕ → ℝ :=
  fun p q =>
    if p < n1 + n2 ∧ q < n1 + n2 then
      if p < n1 ∧ q < n1 then driveM p q
      else if n1 ≤ p ∧ n1 ≤ q then drivenM (p - n1) (q - n1)
      else 0
    else 0

/-- The 12×12 `coupling_matrix` array of `MultiRotor.K` before the `* k_g`
scaling, as its row list; `S = sin β`, `C = cos β` with `β` the pressure angle
of the first gear, `r1`, `r2` the two base radii. -/
def couplingRows (S C r1 r2 : ℝ) : List (List ℝ) :=
  [[S^2, S*C, 0, 0, 0, r1*S, -S^2, -S*C, 0, 0, 0, r2*S],
   [S*C, C^2, 0, 0, 0, r1*C, -S*C, -C^2, 0, 0, 0, r2*C],
   [0, 0, 0, 0, 0, 0, 0, 0, 0, 0, 0, 0],
   [0, 0, 0, 0, 0, 0, 0, 0, 0, 0, 0, 0],
   [0, 0, 0, 0, 0, 0, 0, 0, 0, 0, 0, 0],
   [r1*S, r1*C, 0, 0, 0, r1^2, -r1*S, -r1*C, 0, 0, 0, r1*r2],
   [-S^2, -S*C, 0, 0, 0, -r1*S, S^2, S*C, 0, 0, 0, -r2*S],
   [-S*C, -C^2, 0, 0, 0, -r1*C, S*C, C^2, 0, 0, 0, -r2*C],
   [0, 0, 0, 0, 0, 0, 0, 0, 0, 0, 0, 0],
   [0, 0, 0, 0, 0, 0, 0, 0, 0, 0, 0, 0],
   [0, 0, 0, 0, 0, 0, 0, 0, 0, 0, 0, 0],
   [r2*S, r2*C, 0, 0, 0, r1*r2, -r2*S, -r2*C, 0, 0, 0, r2^2]]

/-- Entry `(i, j)` of the unscaled coupling array (0 outside the 12×12 range). -/
def couplingBase (S C r1 r2 : ℝ) (i j : ℕ) : ℝ :=
  ((couplingRows S C r1 r2).getD i []).getD j 0

/-- The index `a` whose write lands last (row-major, last-write-wins, numpy
fancy-assignment semantics) at global row `p` under
`K0[np.ix_(dofs, dofs)] += cm`; `none` when no entry of `dofs` equals `p`. -/
def lastHit (dofs : List ℕ) (p : ℕ) : Option ℕ :=
  (List.range dofs.length).reverse.find? (fun a => dofs.get? a == some p)

/-- The in-place update `K0[np.ix_(dofs, dofs)] += coupling_matrix` of
`MultiRotor.K`, as the resulting matrix. -/
def applyCoupling (K0 : ℕ → ℕ → ℝ) (dofs : List ℕ) (cm : ℕ → ℕ → ℝ) :
    ℕ → ℕ → ℝ :=
  fun p q =>
    match lastHit dofs p, lastHit dofs q with
    | some a, some b => K0 p q + cm a b
    | _, _ => K0 p q

/-- `MultiRotor.M(frequency, synchronous)`: the drive rotor's mass matrix is
requested first, then the driven rotor's at `frequency * self.gear_ratio`
(which raises `TypeError` when `frequency` is `None`), and the two are
block-joined. -/
def MultiRotorState.M (st : MultiRotorState) (frequency : Option ℝ)
    (synchronous : Bool) : Except PyErr (ℕ → ℕ → ℝ) :=
  let driveM := st.rotor1.Mfun frequency synchronous
  (pyMulFloat frequency st.gear_ratio).bind fun f2 =>
    .ok (joinMatrices st.rotor1.ndof st.rotor2.ndof driveM
      (st.rotor2.Mfun (some f2) synchronous))

/-- `MultiRotor.K(frequency, ignore)`: block-join of the two rotors' stiffness
matrices (the driven one at `frequency * self.gear_ratio`), then the gear-mesh
coupling block, scaled by `k_g = self.gear_mesh_stiffness`, is accumulated at
the 12 global DOF indices `[*gears[0].dof_global_index.values(),
*gears[1].dof_global_index.values()]`. -/
noncomputable def MultiRotorState.K (st : MultiRotorState) (frequency : ℝ)
    (ignore : List ℕ) : ℕ → ℕ → ℝ :=
  let K0 := joinMatrices st.rotor1.ndof st.rotor2.ndof
    (st.rotor1.Kfun frequency ignore)
    (st.rotor2.Kfun (frequency * st.gear_ratio) ignore)
  let beta := st.gear1.pressure_angle
  let k_g := st.gear_mesh_stiffness
  let r1 := st.gear1.base_radius
  let r2 := st.gear2.base_radius
  let S := Real.sin beta
  let C := Real.cos beta
  let couplingMatrix := fun a b => couplingBase S C r1 r2 a b * k_g
  let dofs := st.gear1.dof_global_index ++ st.gear2.dof_global_index
  applyCoupling K0 dofs couplingMatrix

/-- `MultiRotor.C(frequency, ignore)`: block-join, driven rotor evaluated at
`frequency * self.gear_ratio`. -/
def MultiRotorState.C (st : MultiRotorState) (frequency : ℝ)
    (ignore : List ℕ) : ℕ → ℕ → ℝ :=
  joinMatrices st.rotor1.ndof st.rotor2.ndof
    (st.rotor1.Cfun frequency ignore)
    (st.rotor2.Cfun (frequency * st.gear_ratio) ignore)

/-- `MultiRotor.G()`: block-join with the driven rotor's gyroscopic matrix
scaled by the gear ratio (`self.rotors[1].G() * self.gear_ratio`). -/
def MultiRotorState.G (st : MultiRotorState) : ℕ → ℕ → ℝ :=
  joinMatrices st.rotor1.ndof st.rotor2.ndof st.rotor1.Gfun
    (fun p q => st.rotor2.Gfun p q * st.gear_ratio)

/-- `MultiRotor.Ksdt()`: block-join with the driven rotor's transient
stiffness matrix scaled by the gear ratio. -/
def MultiRotorState.Ksdt (st : MultiRotorState) : ℕ → ℕ → ℝ :=
  joinMatrices st.rotor1.ndof st.rotor2.ndof st.rotor1.Ksdtfun
    (fun p q => st.rotor2.Ksdtfun p q * st.gear_ratio)

/-- `MultiRotor.__init__`.  `drive` and `driven` stand for the caller's rotor
objects; `R1` and `R2` of the source are deep copies of them, which value
semantics renders as reuse of the same record values.  `dy_pos` is computed in
the source from the rendered gear patches of `Rotor.plot_rotor` (an external
collaborator), so it is taken here as an input.  The gear captured from the
driven rotor's disk elements is aliased into `R2.elements`, so the
renumbering loop also offsets its node id. -/
def mkMultiRotor (drive driven : RotorModel) (coupled1 coupled2 : ℕ)
    (gear_ratio gear_mesh_stiffness dy_pos : ℝ) :
    Except PyErr MultiRotorState :=
  if drive.number_dof ≠ 6 ∨ driven.number_dof ≠ 6 then .error .typeError
  else
    match drive.disk_elements.filter (fun e => e.n == coupled1 && e.isGear),
          driven.disk_elements.filter (fun e => e.n == coupled2 && e.isGear) with
    | g1 :: _, g2 :: _ =>
      (pyIndex drive.nodes g1.n).bind fun idx1 =>
      (pyIndex driven.nodes g2.n).bind fun idx2 =>
      (pyGet drive.nodes_pos idx1).bind fun p1 =>
      (pyGet drive.nodes_pos idx2).bind fun p2 =>
      (pyMax (drive.nodes ++ drive.link_nodes)).bind fun R1_max_node =>
      (pyMin (driven.nodes ++ driven.link_nodes)).bind fun R2_min_node =>
      let dz_pos := p1 - p2
      let d_node := if R2_min_node ≤ R1_max_node then R1_max_node + 1 else 0
      let R2_elements :=
        if R2_min_node ≤ R1_max_node then driven.elements.map (shiftElement d_node)
        else driven.elements
      let gear2 :=
        if R2_min_node ≤ R1_max_node then { g2 with n := g2.n + d_node } else g2
      let R2_nodes := driven.nodes.map (fun n => n + d_node)
      .ok { rotor1 := drive
            rotor2 := driven
            gear_ratio := gear_ratio
            gear_mesh_stiffness := gear_mesh_stiffness
            gear1 := g1
            gear2 := gear2
            dy_pos := dy_pos
            dz_pos := dz_pos
            node_offset := d_node
            R2_nodes := R2_nodes
            nodes := drive.nodes ++ R2_nodes
            nodes_pos := drive.nodes_pos ++ driven.nodes_pos.map (fun z => z + dz_pos)
            center_line_pos :=
              drive.center_line_pos ++ driven.center_line_pos.map (fun y => y + dy_pos)
            elements := drive.elements ++ R2_elements }
    | _, _ => .error .typeError

/-- The axial offset the spec describes in §4.3: primary coupling node's axial
position minus the secondary coupling node's pre-offset axial position, the
latter read from the secondary rotor's `nodes_pos` (the source instead reads
`R1.nodes_pos[idx2]`). -/
def specDzPos (drive driven : RotorModel) (g1n g2n : ℕ) : Except PyErr ℝ :=
  (pyIndex drive.nodes g1n).bind fun idx1 =>
  (pyIndex driven.nodes g2n).bind fun idx2 =>
  (pyGet drive.nodes_pos idx1).bind fun p1 =>
  (pyGet driven.nodes_pos idx2).bind fun p2 =>
  .ok (p1 - p2)

/-- A handle to a constructed `MultiRotor` in a store of rotor objects:
`rotors` holds the addresses stored in `self.rotors`, `state` the attribute
values. -/
structure MRHandle where
  rotors : List ℕ
  state : MultiRotorState

/-- `MultiRotor(...)` run against a store of rotor objects addressed by `ℕ`.
The deep copies are fresh objects, so no pre-existing store address is
written, and `self.rotors = [drive_rotor, driven_rotor]` stores the caller's
addresses. -/
def constructOnStore (store : ℕ → RotorModel) (a1 a2 : ℕ) (c1 c2 : ℕ)
    (r kg dy : ℝ) : Except PyErr ((ℕ → RotorModel) × MRHandle) :=
  (mkMultiRotor (store a1) (store a2) c1 c2 r kg dy).map fun st =>
    (store, { rotors := [a1, a2], state := st })

/-- A 6-DOF test rotor whose matrix accessors all return the zero matrix. -/
def zeroRotor (nodes link_nodes : List ℕ) (nodes_pos : List ℝ)
    (elements : List MRElement) (disks : List DiskElem) : RotorModel :=
  { number_dof := 6
    ndof := 6 * nodes.length
    nodes := nodes
    link_nodes := link_nodes
    nodes_pos := nodes_pos
    center_line_pos := []
    elements := elements
    disk_elements := disks
    Mfun := fun _ _ _ _ => 0
    Kfun := fun _ _ _ _ => 0
    Cfun := fun _ _ _ _ => 0
    Gfun := fun _ _ => 0
    Ksdtfun := fun _ _ => 0 }

/-- A test gear element at node `n` with the given global DOF indices. -/
def testGear (n : ℕ) (dofs : List ℕ) : DiskElem :=
  { n := n, isGear := true, base_radius := 1, pressure_angle := 0,
    dof_global_index := dofs }

/-- A concrete `MultiRotorState` with zero matrices, 6 DOF per rotor, and the
standard gear DOF indices. -/
def stZero : MultiRotorState :=
  { rotor1 := zeroRotor [0] [] [0] [] [testGear 0 [0, 1, 2, 3, 4, 5]]
    rotor2 := zeroRotor [0] [] [0] [] [testGear 0 [6, 7, 8, 9, 10, 11]]
    gear_ratio := 2
    gear_mesh_stiffness := 0
    gear1 := testGear 0 [0, 1, 2, 3, 4, 5]
    gear2 := testGear 0 [6, 7, 8, 9, 10, 11]
    dy_pos := 0
    dz_pos := 0
    node_offset := 0
    R2_nodes := [0]
    nodes := [0, 1]
    nodes_pos := [0, 0]
    center_line_pos := []
    elements := [] }

/-- Drive rotor for the `dz_pos` evaluation: gear at node 1, axial positions
`[0, 1]`. -/
def driveC3 : RotorModel :=
  zeroRotor [0, 1] [] [0, 1] [⟨0, none⟩, ⟨1, none⟩] [testGear 1 [6, 7, 8, 9, 10, 11]]

/-- Driven rotor for the `dz_pos` evaluation: gear at node 0, axial positions
`[5, 6]`. -/
def drivenC3 : RotorModel :=
  zeroRotor [0, 1] [] [5, 6] [⟨0, none⟩, ⟨1, none⟩] [testGear 0 [0, 1, 2, 3, 4, 5]]

/-- Drive rotor with exactly one gear at node 1. -/
def driveC7 : RotorModel :=
  zeroRotor [0, 1] [] [0, 1] [⟨0, none⟩, ⟨1, none⟩] [testGear 1 [6, 7, 8, 9, 10, 11]]

/-- Driven rotor with TWO gear elements at node 0. -/
def drivenC7 : RotorModel :=
  zeroRotor [0, 1] [] [0, 1] [⟨0, none⟩, ⟨1, none⟩]
    [testGear 0 [0, 1, 2, 3, 4, 5], testGear 0 [0, 1, 2, 3, 4, 5]]

/-- Drive rotor with no gear element at all. -/
def driveC7e : RotorModel := zeroRotor [0] [] [0] [⟨0, none⟩] []

/-- Drive rotor for the renumbering check: nodes `0..3`, gear at node 3. -/
def driveC4 : RotorModel :=
  zeroRotor [0, 1, 2, 3] [] [0, 1, 2, 3] [⟨0, none⟩, ⟨1, none⟩]
    [testGear 3 [18, 19, 20, 21, 22, 23]]

/-- Driven rotor for the renumbering check: nodes `0..1` (colliding with the
drive rotor's), one element with a linked node. -/
def drivenC4 : RotorModel :=
  zeroRotor [0, 1] [] [10, 11] [⟨0, none⟩, ⟨1, some 0⟩]
    [testGear 0 [24, 25, 26, 27, 28, 29]]

/-- Fallback rotor value (used only as a `getD` default). -/
def rotorDflt : RotorModel := zeroRotor [] [] [] [] []

/-- Fallback `MultiRotorState` value (used only as a `getD` default). -/
def mrStateDflt : MultiRotorState :=
  { rotor1 := rotorDflt, rotor2 := rotorDflt, gear_ratio := 0,
    gear_mesh_stiffness := 0, gear1 := testGear 0 [], gear2 := testGear 0 [],
    dy_pos := 0, dz_pos := 0, node_offset := 0, R2_nodes := [], nodes := [],
    nodes_pos := [], center_line_pos := [], elements := [] }

/-- The state built by `mkMultiRotor` on the renumbering-check rotors. -/
def stC4 : MultiRotorState :=
  (mkMultiRotor driveC4 drivenC4 3 0 2 1 0).toOption.getD mrStateDflt

/-- A two-object store holding the drive rotor at address 0 and the driven
rotor at address 1. -/
def storeC8 : ℕ → RotorModel := fun a => if a = 0 then driveC7 else drivenC3

/-- Fallback store/handle pair (used only as a `getD` default). -/
def handleDflt : (ℕ → RotorModel) × MRHandle :=
  (storeC8, { rotors := [], state := mrStateDflt })

/-- The store/handle pair produced by constructing a `MultiRotor` from the
rotors at addresses 0 and 1 of `storeC8`. -/
def resC8 : (ℕ → RotorModel) × MRHandle :=
  (constructOnStore storeC8 0 1 1 0 2 1 0).toOption.getD handleDflt

/-! Helper lemmas. -/

theorem exceptBind_ok {ε α β : Type} {x : Except ε α} {f : α → Except ε β}
    {v : β} : x.bind f = .ok v ↔ ∃ a, x = .ok a ∧ f a = .ok v := by
  cases x <;> simp [Except.bind]

theorem pyMax_ok {l : List ℕ} {m : ℕ} : pyMax l = .ok m ↔ l.max? = some m := by
  unfold pyMax
  cases l.max? <;> simp

theorem pyMin_ok {l : List ℕ} {m : ℕ} : pyMin l = .ok m ↔ l.min? = some m := by
  unfold pyMin
  cases l.min? <;> simp

theorem couplingRows_length (S C r1 r2 : ℝ) :
    (couplingRows S C r1 r2).length = 12 := rfl

theorem couplingRows_row_length (S C r1 r2 : ℝ) (i : ℕ) :
    ((couplingRows S C r1 r2).getD i []).length ≤ 12 := by
  rcases Nat.lt_or_ge i 12 with hi | hi
  · interval_cases i <;> exact Nat.le_refl 12
  · have h12 : (couplingRows S C r1 r2).length ≤ i := by
      rw [couplingRows_length]
      exact hi
    rw [List.getD_eq_default _ _ h12]
    exact Nat.zero_le 12

theorem couplingBase_zero_left (S C r1 r2 : ℝ) {i : ℕ} (j : ℕ) (h : 12 ≤ i) :
    couplingBase S C r1 r2 i j = 0 := by
  unfold couplingBase
  rw [show (couplingRows S C r1 r2).getD i [] = [] from
    List.getD_eq_default _ _ (by rw [couplingRows_length]; exact h)]
  exact List.getD_eq_default _ _ (Nat.zero_le j)

theorem couplingBase_zero_right (S C r1 r2 : ℝ) (i : ℕ) {j : ℕ} (h : 12 ≤ j) :
    couplingBase S C r1 r2 i j = 0 := by
  unfold couplingBase
  exact List.getD_eq_default _ _ (le_trans (couplingRows_row_length S C r1 r2 i) h)

theorem couplingBase_symm (S C r1 r2 : ℝ) (i j : ℕ) :
    couplingBase S C r1 r2 i j = couplingBase S C r1 r2 j i := by
  rcases Nat.lt_or_ge i 12 with hi | hi
  · rcases Nat.lt_or_ge j 12 with hj | hj
    · interval_cases i <;> interval_cases j <;> rfl
    · rw [couplingBase_zero_right S C r1 r2 i hj, couplingBase_zero_left S C r1 r2 i hj]
  · rw [couplingBase_zero_left S C r1 r2 j hi, couplingBase_zero_right S C r1 r2 j hi]

theorem lastHit_get? {dofs : List ℕ} {a pa : ℕ} (hnd : dofs.Nodup)
    (ha : dofs.get? a = some pa) : lastHit dofs pa = some a := by
  have halen : a < dofs.length := by
    by_contra hcon
    rw [List.get?_eq_none.mpr (le_of_not_lt hcon)] at ha
    exact Option.noConfusion ha
  unfold lastHit
  cases hfind : (List.range dofs.length).reverse.find? (fun b => dofs.get? b == some pa) with
  | none =>
    exfalso
    have hall := List.find?_eq_none.mp hfind a
        (by simp only [List.mem_reverse, List.mem_range]; exact halen)
    rw [List.get?_eq_getElem?] at ha
    simp [ha] at hall
  | some b =>
    have hsome := List.find?_some hfind
    have hpb : dofs.get? b = some pa := by
      rw [List.get?_eq_getElem?]
      simpa using hsome
    have hab : a = b := List.get?_inj halen hnd (ha.trans hpb.symm)
    rw [hab]

theorem applyCoupling_get? {K0 : ℕ → ℕ → ℝ} {dofs : List ℕ} {cm : ℕ → ℕ → ℝ}
    {a b pa pb : ℕ} (hnd : dofs.Nodup) (ha : dofs.get? a = some pa)
    (hb : dofs.get? b = some pb) :
    applyCoupling K0 dofs cm pa pb = K0 pa pb + cm a b := by
  unfold applyCoupling
  rw [lastHit_get? hnd ha, lastHit_get? hnd hb]

theorem applyCoupling_symm {K0 : ℕ → ℕ → ℝ} {dofs : List ℕ} {cm : ℕ → ℕ → ℝ}
    (hK0 : ∀ p q, K0 p q = K0 q p) (hcm : ∀ a b, cm a b = cm b a) (p q : ℕ) :
    applyCoupling K0 dofs cm p q = applyCoupling K0 dofs cm q p := by
  unfold applyCoupling
  rcases lastHit dofs p with _ | a <;> rcases lastHit dofs q with _ | b
  · exact hK0 p q
  · exact hK0 p q
  · exact hK0 p q
  · show K0 p q + cm a b = K0 q p + cm b a
    rw [hK0 p q, hcm]

theorem joinMatrices_left {n1 n2 : ℕ} (A B : ℕ → ℕ → ℝ) {p q : ℕ}
    (h1 : p < n1) (h2 : q < n1) : joinMatrices n1 n2 A B p q = A p q := by
  unfold joinMatrices
  rw [if_pos ⟨by omega, by omega⟩, if_pos ⟨h1, h2⟩]

theorem joinMatrices_right {n1 n2 : ℕ} (A B : ℕ → ℕ → ℝ) {p q : ℕ}
    (h1 : n1 ≤ p) (h2 : n1 ≤ q) (h3 : p < n1 + n2) (h4 : q < n1 + n2) :
    joinMatrices n1 n2 A B p q = B (p - n1) (q - n1) := by
  unfold joinMatrices
  rw [if_pos ⟨h3, h4⟩, if_neg (by omega), if_pos ⟨h1, h2⟩]

theorem joinMatrices_cross_lower {n1 n2 : ℕ} (A B : ℕ → ℕ → ℝ) {p q : ℕ}
    (h1 : p < n1) (h2 : n1 ≤ q) : joinMatrices n1 n2 A B p q = 0 := by
  unfold joinMatrices
  split_ifs <;> first | rfl | omega

theorem joinMatrices_cross_upper {n1 n2 : ℕ} (A B : ℕ → ℕ → ℝ) {p q : ℕ}
    (h1 : n1 ≤ p) (h2 : q < n1) : joinMatrices n1 n2 A B p q = 0 := by
  unfold joinMatrices
  split_ifs <;> first | rfl | omega

theorem joinMatrices_symm {n1 n2 : ℕ} {A B : ℕ → ℕ → ℝ}
    (hA : ∀ p q, A p q = A q p) (hB : ∀ p q, B p q = B q p) (p q : ℕ) :
    joinMatrices n1 n2 A B p q = joinMatrices n1 n2 A B q p := by
  unfold joinMatrices
  split_ifs <;> first | rfl | omega | exact hA _ _ | exact hB _ _

theorem shiftElement_zero : shiftElement 0 = id := by
  funext e
  cases e with
  | mk n nl =>
    cases nl <;> simp [shiftElement]

theorem mkMultiRotor_ok_inv {drive driven : RotorModel} {c1 c2 : ℕ}
    {r kg dy : ℝ} {st : MultiRotorState}
    (h : mkMultiRotor drive driven c1 c2 r kg dy = .ok st) :
    (drive.disk_elements.filter (fun e => e.n == c1 && e.isGear)).head? = some st.gear1 ∧
    st.rotor1 = drive ∧ st.rotor2 = driven ∧
    ∀ mx mn, (drive.nodes ++ drive.link_nodes).max? = some mx →
      (driven.nodes ++ driven.link_nodes).min? = some mn →
      st.node_offset = (if mn ≤ mx then mx + 1 else 0) ∧
      st.elements = drive.elements ++
        (if mn ≤ mx then driven.elements.map (shiftElement (mx + 1))
         else driven.elements) := by
  unfold mkMultiRotor at h
  split at h
  · exact absurd h (by simp)
  · split at h
    · rename_i x1 x2 g1 rest1 g2 rest2 heq1 heq2
      simp only [exceptBind_ok, Except.ok.injEq] at h
      obtain ⟨idx1, hidx1, idx2, hidx2, p1, hp1, p2, hp2, mxv, hmxv, mnv, hmnv, h⟩ := h
      subst h
      refine ⟨?_, rfl, rfl, ?_⟩
      · rw [heq1]
        rfl
      · intro mx mn hmx hmn
        rw [pyMax_ok] at hmxv
        rw [pyMin_ok] at hmnv
        rw [hmx] at hmxv
        rw [hmn] at hmnv
        obtain rfl : mx = mxv := by injection hmxv
        obtain rfl : mn = mnv := by injection hmnv
        by_cases hc : mn ≤ mx
        · constructor
          · rfl
          · simp only [if_pos hc]
        · constructor
          · rfl
          · simp only [if_neg hc]
    · exact absurd h (by simp)

/-! Claim theorems. -/

/-- C9: calling `MultiRotor.M` with its default `frequency=None` always raises
(`None * gear_ratio` is a `TypeError`), so a numeric frequency is effectively
required despite the optional-looking signature. -/
theorem claim_C9 (st : MultiRotorState) (s : Bool) :
    st.M none s = .error PyErr.typeError := rfl

/-- C10: the gear-mesh coupling block depends only on the first gear's
pressure angle: replacing the secondary gear's `pressure_angle` by any value
(same base radii, mesh stiffness, DOF indices, and rotor matrices) leaves
`MultiRotor.K` unchanged at every frequency. -/
theorem claim_C10 (st : MultiRotorState) (angle2 : ℝ) (f : ℝ) (ig : List ℕ) :
    MultiRotorState.K
      { st with gear2 := { st.gear2 with pressure_angle := angle2 } } f ig =
    st.K f ig := rfl

/-- C3 (code evaluation at the failing input): the source computes
`dz_pos = R1.nodes_pos[idx1] - R1.nodes_pos[idx2]`, reading the PRIMARY
rotor's position list at the secondary gear's index.  With the primary gear at
node 1 (positions `[0, 1]`) and the secondary gear at node 0 (positions
`[5, 6]`), the code yields `1 - 0` while the spec's
"primary position minus secondary pre-offset position" is `1 - 5`. -/
theorem claim_C3_code_eval :
    (mkMultiRotor driveC3 drivenC3 1 0 2 1 0).map (fun st => st.dz_pos) =
      .ok ((1 : ℝ) - 0) ∧
    specDzPos driveC3 drivenC3 1 0 = .ok ((1 : ℝ) - 5) ∧
    ((1 : ℝ) - 0) ≠ ((1 : ℝ) - 5) := by
  refine ⟨rfl, rfl, by norm_num⟩

/-- C7 counterexample: a driven rotor with TWO gear elements at the coupling
node does not make construction fail — `MultiRotor.__init__` only raises when
a match list is empty and otherwise silently takes `gear_1[0]`/`gear_2[0]`,
so the claim "more than one gear at the node is fatal" is false. -/
theorem claim_C7_counterexample :
    1 < (drivenC7.disk_elements.filter (fun e => e.n == 0 && e.isGear)).length ∧
    (mkMultiRotor driveC7 drivenC7 1 0 2 1 0).map (fun _ => ()) = .ok () := by
  exact ⟨by decide, rfl⟩

/-- C7 (amended): construction fails fatally when a rotor has ZERO gear
elements at its coupling node; when there are several matches it silently
proceeds with the FIRST match of the filter. -/
theorem claim_C7_amended (drive driven : RotorModel) (c1 c2 : ℕ)
    (r kg dy : ℝ) :
    ((drive.disk_elements.filter (fun e => e.n == c1 && e.isGear) = [] ∨
      driven.disk_elements.filter (fun e => e.n == c2 && e.isGear) = []) →
      mkMultiRotor drive driven c1 c2 r kg dy = .error PyErr.typeError) ∧
    (∀ st, mkMultiRotor drive driven c1 c2 r kg dy = .ok st →
      (drive.disk_elements.filter (fun e => e.n == c1 && e.isGear)).head? =
        some st.gear1) := by
  constructor
  · intro hemp
    unfold mkMultiRotor
    split
    · rfl
    · rcases hemp with hemp | hemp
      · rw [hemp]
      · rw [hemp]
        cases drive.disk_elements.filter (fun e => e.n == c1 && e.isGear) <;> rfl
  · intro st h
    exact (mkMultiRotor_ok_inv h).1

/-- C7 witness: a drive rotor with no gear at the coupling node makes
construction raise `TypeError`. -/
theorem claim_C7_witness :
    (driveC7e.disk_elements.filter (fun e => e.n == 0 && e.isGear) = [] ∨
     drivenC7.disk_elements.filter (fun e => e.n == 0 && e.isGear) = []) ∧
    mkMultiRotor driveC7e drivenC7 0 0 2 1 0 = .error PyErr.typeError :=
  ⟨Or.inl rfl, (claim_C7_amended driveC7e drivenC7 0 0 2 1 0).1 (Or.inl rfl)⟩

/-- C8 counterexample: `self.rotors = [drive_rotor, driven_rotor]` stores the
caller's own rotor objects, so the constructed `MultiRotor` does NOT own
copies in `rotors`: at a concrete store the input address 0 appears in the
handle's rotor list. -/
theorem claim_C8_counterexample :
    ¬ (∀ (store : ℕ → RotorModel) (a1 a2 c1 c2 : ℕ) (r kg dy : ℝ)
        (res : (ℕ → RotorModel) × MRHandle),
        constructOnStore store a1 a2 c1 c2 r kg dy = .ok res →
        (∀ a, res.1 a = store a) ∧ a1 ∉ res.2.rotors ∧ a2 ∉ res.2.rotors) := by
  intro hclaim
  have h := (hclaim storeC8 0 1 1 0 2 1 0 resC8 rfl).2.1
  exact h (by decide)

/-- C8 (amended): construction writes no pre-existing store address (the
renumbering is applied to deep copies only, so the caller's rotors are
unchanged), but `rotors` holds the caller's original rotor objects — the
addresses passed in — not fresh copies. -/
theorem claim_C8_amended (store : ℕ → RotorModel) (a1 a2 c1 c2 : ℕ)
    (r kg dy : ℝ) (res : (ℕ → RotorModel) × MRHandle)
    (h : constructOnStore store a1 a2 c1 c2 r kg dy = .ok res) :
    (∀ a, res.1 a = store a) ∧ res.2.rotors = [a1, a2] ∧
    res.2.state.rotor1 = store a1 ∧ res.2.state.rotor2 = store a2 := by
  unfold constructOnStore at h
  cases hmk : mkMultiRotor (store a1) (store a2) c1 c2 r kg dy with
  | error e =>
    rw [hmk] at h
    exact absurd h (by simp [Except.map])
  | ok st =>
    rw [hmk] at h
    simp only [Except.map, Except.ok.injEq] at h
    subst h
    have hinv := mkMultiRotor_ok_inv hmk
    exact ⟨fun a => rfl, rfl, hinv.2.1, hinv.2.2.1⟩

/-- C8 witness: the amended statement at the concrete two-rotor store. -/
theorem claim_C8_witness :
    constructOnStore storeC8 0 1 1 0 2 1 0 = .ok resC8 ∧
    (∀ a, resC8.1 a = storeC8 a) ∧ resC8.2.rotors = [0, 1] ∧
    resC8.2.state.rotor1 = storeC8 0 ∧ resC8.2.state.rotor2 = storeC8 1 := by
  have h := claim_C8_amended storeC8 0 1 1 0 2 1 0 resC8 rfl
  exact ⟨rfl, h.1, h.2.1, h.2.2.1, h.2.2.2⟩

theorem applyCoupling_zero_cm {K0 : ℕ → ℕ → ℝ} {dofs : List ℕ}
    {cm : ℕ → ℕ → ℝ} (hcm : ∀ a b, cm a b = 0) (p q : ℕ) :
    applyCoupling K0 dofs cm p q = K0 p q := by
  unfold applyCoupling
  rcases lastHit dofs p with _ | a <;> rcases lastHit dofs q with _ | b
  · rfl
  · rfl
  · rfl
  · show K0 p q + cm a b = K0 p q
    rw [hcm, add_zero]

theorem couplingBase_entry_00 (S C r1 r2 : ℝ) :
    couplingBase S C r1 r2 0 0 = S ^ 2 := rfl

/-- C4: the node offset is 0 when `max(primary nodes ∪ primary link nodes)` is
below `min(secondary nodes ∪ secondary link nodes)` and otherwise is that
maximum plus one, and it is added to every secondary element's own node id
and, when present, its linked-node id. -/
theorem claim_C4 (drive driven : RotorModel) (c1 c2 : ℕ) (r kg dy : ℝ)
    (st : MultiRotorState)
    (h : mkMultiRotor drive driven c1 c2 r kg dy = .ok st) (mx mn : ℕ)
    (hmx : (drive.nodes ++ drive.link_nodes).max? = some mx)
    (hmn : (driven.nodes ++ driven.link_nodes).min? = some mn) :
    (mx < mn → st.node_offset = 0) ∧
    (mn ≤ mx → st.node_offset = mx + 1) ∧
    st.elements = drive.elements ++
      driven.elements.map (shiftElement st.node_offset) := by
  obtain ⟨hoff, helems⟩ := (mkMultiRotor_ok_inv h).2.2.2 mx mn hmx hmn
  by_cases hc : mn ≤ mx
  · rw [if_pos hc] at hoff
    rw [if_pos hc] at helems
    refine ⟨fun hlt => absurd hlt (by omega), fun _ => hoff, ?_⟩
    rw [helems, hoff]
  · rw [if_neg hc] at hoff
    rw [if_neg hc] at helems
    refine ⟨fun _ => hoff, fun hle => absurd hle hc, ?_⟩
    rw [helems, hoff, shiftElement_zero, List.map_id]

/-- C4 witness: concrete rotors with overlapping node ranges, offset `3 + 1`. -/
theorem claim_C4_witness :
    mkMultiRotor driveC4 drivenC4 3 0 2 1 0 = .ok stC4 ∧
    (driveC4.nodes ++ driveC4.link_nodes).max? = some 3 ∧
    (drivenC4.nodes ++ drivenC4.link_nodes).min? = some 0 ∧
    ((3 : ℕ) < 0 → stC4.node_offset = 0) ∧
    ((0 : ℕ) ≤ 3 → stC4.node_offset = 3 + 1) ∧
    stC4.elements = driveC4.elements ++
      drivenC4.elements.map (shiftElement stC4.node_offset) := by
  have h := claim_C4 driveC4 drivenC4 3 0 2 1 0 stC4 rfl 3 0 rfl rfl
  exact ⟨rfl, rfl, rfl, h.1, h.2.1, h.2.2⟩

/-- C2: `MultiRotor.K` accumulates (never assigns) the symmetric 12×12
coupling block, uniformly scaled by `gear_mesh_stiffness`, into the
block-joined stiffness matrix at the 12 global DOF indices
`[gear 1's 6 DOF, gear 2's 6 DOF]`; the block's top-left entry is
`gear_mesh_stiffness * sin(pressure_angle)^2`. -/
theorem claim_C2 (st : MultiRotorState) (f : ℝ) (ig : List ℕ)
    (hnd : (st.gear1.dof_global_index ++ st.gear2.dof_global_index).Nodup) :
    (∀ a b pa pb,
      (st.gear1.dof_global_index ++ st.gear2.dof_global_index).get? a = some pa →
      (st.gear1.dof_global_index ++ st.gear2.dof_global_index).get? b = some pb →
      st.K f ig pa pb =
        joinMatrices st.rotor1.ndof st.rotor2.ndof (st.rotor1.Kfun f ig)
          (st.rotor2.Kfun (f * st.gear_ratio) ig) pa pb +
        couplingBase (Real.sin st.gear1.pressure_angle)
          (Real.cos st.gear1.pressure_angle) st.gear1.base_radius
          st.gear2.base_radius a b * st.gear_mesh_stiffness) ∧
    (∀ a b,
      couplingBase (Real.sin st.gear1.pressure_angle)
        (Real.cos st.gear1.pressure_angle) st.gear1.base_radius
        st.gear2.base_radius a b * st.gear_mesh_stiffness =
      couplingBase (Real.sin st.gear1.pressure_angle)
        (Real.cos st.gear1.pressure_angle) st.gear1.base_radius
        st.gear2.base_radius b a * st.gear_mesh_stiffness) ∧
    couplingBase (Real.sin st.gear1.pressure_angle)
      (Real.cos st.gear1.pressure_angle) st.gear1.base_radius
      st.gear2.base_radius 0 0 * st.gear_mesh_stiffness =
      st.gear_mesh_stiffness * Real.sin st.gear1.pressure_angle ^ 2 := by
  refine ⟨?_, ?_, ?_⟩
  · intro a b pa pb ha hb
    simp only [MultiRotorState.K]
    exact applyCoupling_get? hnd ha hb
  · intro a b
    rw [couplingBase_symm]
  · rw [couplingBase_entry_00, mul_comm]

/-- C2 witness: the accumulation equation at the first DOF pair of a concrete
state with distinct DOF indices. -/
theorem claim_C2_witness :
    (stZero.gear1.dof_global_index ++ stZero.gear2.dof_global_index).Nodup ∧
    stZero.K 1 [] 0 0 =
      joinMatrices stZero.rotor1.ndof stZero.rotor2.ndof
        (stZero.rotor1.Kfun 1 []) (stZero.rotor2.Kfun (1 * stZero.gear_ratio) [])
        0 0 +
      couplingBase (Real.sin stZero.gear1.pressure_angle)
        (Real.cos stZero.gear1.pressure_angle) stZero.gear1.base_radius
        stZero.gear2.base_radius 0 0 * stZero.gear_mesh_stiffness :=
  ⟨by decide, (claim_C2 stZero 1 [] (by decide)).1 0 0 0 0 rfl rfl⟩

/-- C5: the combined stiffness matrix is symmetric whenever both rotors' own
stiffness matrices are symmetric and `gear_mesh_stiffness ≥ 0`. -/
theorem claim_C5 (st : MultiRotorState) (f : ℝ) (ig : List ℕ)
    (h1 : ∀ g p q, st.rotor1.Kfun g ig p q = st.rotor1.Kfun g ig q p)
    (h2 : ∀ g p q, st.rotor2.Kfun g ig p q = st.rotor2.Kfun g ig q p)
    (hkg : 0 ≤ st.gear_mesh_stiffness) (p q : ℕ) :
    st.K f ig p q = st.K f ig q p := by
  simp only [MultiRotorState.K]
  exact applyCoupling_symm
    (joinMatrices_symm (h1 f) (h2 (f * st.gear_ratio)))
    (fun a b => by rw [couplingBase_symm]) p q

/-- C5 witness: symmetry of the combined stiffness matrix of a concrete state
with zero rotor matrices. -/
theorem claim_C5_witness :
    (∀ g p q, stZero.rotor1.Kfun g [] p q = stZero.rotor1.Kfun g [] q p) ∧
    (0 : ℝ) ≤ stZero.gear_mesh_stiffness ∧
    stZero.K 1 [] 0 1 = stZero.K 1 [] 1 0 :=
  ⟨fun _ _ _ => rfl, le_refl 0,
    claim_C5 stZero 1 [] (fun _ _ _ => rfl) (fun _ _ _ => rfl) (le_refl 0) 0 1⟩

/-- C6: with `gear_mesh_stiffness = 0` the cross-rotor blocks of the combined
stiffness matrix are exactly zero. -/
theorem claim_C6 (st : MultiRotorState) (f : ℝ) (ig : List ℕ) (p q : ℕ)
    (hkg : st.gear_mesh_stiffness = 0) (hp : p < st.rotor1.ndof)
    (hq1 : st.rotor1.ndof ≤ q) (hq2 : q < st.rotor1.ndof + st.rotor2.ndof) :
    st.K f ig p q = 0 ∧ st.K f ig q p = 0 := by
  have hcm : ∀ a b,
      couplingBase (Real.sin st.gear1.pressure_angle)
        (Real.cos st.gear1.pressure_angle) st.gear1.base_radius
        st.gear2.base_radius a b * st.gear_mesh_stiffness = 0 := by
    intro a b
    rw [hkg, mul_zero]
  constructor
  · simp only [MultiRotorState.K]
    rw [applyCoupling_zero_cm hcm]
    exact joinMatrices_cross_lower _ _ hp hq1
  · simp only [MultiRotorState.K]
    rw [applyCoupling_zero_cm hcm]
    exact joinMatrices_cross_upper _ _ hq1 hp

/-- C6 witness: a cross-block entry of a concrete decoupled state is zero. -/
theorem claim_C6_witness :
    stZero.gear_mesh_stiffness = 0 ∧ (0 : ℕ) < stZero.rotor1.ndof ∧
    stZero.K 1 [] 0 6 = 0 ∧ stZero.K 1 [] 6 0 = 0 := by
  have h := claim_C6 stZero 1 [] 0 6 rfl (by decide) (by decide) (by decide)
  exact ⟨rfl, by decide, h.1, h.2⟩

/-- C1: every combined matrix is the block-join of the primary rotor's matrix
with the secondary rotor's; `M`, `K`, `C` call the secondary accessor at
`frequency * gear_ratio` (the primary at `frequency`), while `G` and `Ksdt`
scale the secondary rotor's returned matrix by `gear_ratio`. -/
theorem claim_C1 (st : MultiRotorState) (f : ℝ) (s : Bool) (ig : List ℕ)
    (p q : ℕ) (hp1 : st.rotor1.ndof ≤ p) (hq1 : st.rotor1.ndof ≤ q)
    (hp2 : p < st.rotor1.ndof + st.rotor2.ndof)
    (hq2 : q < st.rotor1.ndof + st.rotor2.ndof) :
    (st.M (some f) s = .ok (joinMatrices st.rotor1.ndof st.rotor2.ndof
        (st.rotor1.Mfun (some f) s)
        (st.rotor2.Mfun (some (f * st.gear_ratio)) s))) ∧
    (∀ M1, st.M (some f) s = .ok M1 →
      M1 p q = st.rotor2.Mfun (some (f * st.gear_ratio)) s
        (p - st.rotor1.ndof) (q - st.rotor1.ndof)) ∧
    (st.C f ig p q = st.rotor2.Cfun (f * st.gear_ratio) ig
        (p - st.rotor1.ndof) (q - st.rotor1.ndof)) ∧
    (st.K f ig = applyCoupling
        (joinMatrices st.rotor1.ndof st.rotor2.ndof (st.rotor1.Kfun f ig)
          (st.rotor2.Kfun (f * st.gear_ratio) ig))
        (st.gear1.dof_global_index ++ st.gear2.dof_global_index)
        (fun a b =>
          couplingBase (Real.sin st.gear1.pressure_angle)
            (Real.cos st.gear1.pressure_angle) st.gear1.base_radius
            st.gear2.base_radius a b * st.gear_mesh_stiffness)) ∧
    (st.G p q = st.rotor2.Gfun (p - st.rotor1.ndof) (q - st.rotor1.ndof) *
        st.gear_ratio) ∧
    (st.Ksdt p q = st.rotor2.Ksdtfun (p - st.rotor1.ndof) (q - st.rotor1.ndof) *
        st.gear_ratio) := by
  refine ⟨rfl, ?_, ?_, rfl, ?_, ?_⟩
  · intro M1 hM
    have hJ : Except.ok (ε := PyErr)
        (joinMatrices st.rotor1.ndof st.rotor2.ndof (st.rotor1.Mfun (some f) s)
          (st.rotor2.Mfun (some (f * st.gear_ratio)) s)) = .ok M1 := hM
    rw [Except.ok.injEq] at hJ
    rw [← hJ]
    exact joinMatrices_right _ _ hp1 hq1 hp2 hq2
  · simp only [MultiRotorState.C]
    exact joinMatrices_right _ _ hp1 hq1 hp2 hq2
  · simp only [MultiRotorState.G]
    exact joinMatrices_right _ _ hp1 hq1 hp2 hq2
  · simp only [MultiRotorState.Ksdt]
    exact joinMatrices_right _ _ hp1 hq1 hp2 hq2

/-- C1 witness: secondary-block entries of a concrete state at `p = q = 6`. -/
theorem claim_C1_witness :
    stZero.rotor1.ndof ≤ 6 ∧
    (6 : ℕ) < stZero.rotor1.ndof + stZero.rotor2.ndof ∧
    stZero.C 1 [] 6 6 = stZero.rotor2.Cfun (1 * stZero.gear_ratio) []
      (6 - stZero.rotor1.ndof) (6 - stZero.rotor1.ndof) ∧
    stZero.G 6 6 = stZero.rotor2.Gfun (6 - stZero.rotor1.ndof)
      (6 - stZero.rotor1.ndof) * stZero.gear_ratio := by
  have h := claim_C1 stZero 1 false [] 6 6 (by decide) (by decide) (by decide)
    (by decide)
  exact ⟨by decide, by decide, h.2.2.1, h.2.2.2.2.1⟩
